import Mathlib

/-!
Shallow embedding of the `shuttle-env-vars` crate (`src/lib.rs`).

The crate implements a Shuttle resource that resolves and loads environment
variables in two phases: `EnvVars::output` (phase 1, "declare") and
`EnvVars::build` (phase 2, "materialize").  The external collaborators —
the static-folder provider (`shuttle_static_folder`), the env-file parser
(`dotenvy::from_filename`) and the factory's environment query — are
modelled as explicit parameters or, where a claim depends on the external
provider's documented behaviour, as definitions modelled from the spec.

Paths (`std::path::PathBuf`) are modelled as strings with Unix separators;
`PathBuf::join` with a relative argument appends a component, with an
absolute argument replaces the path.
-/

/-- Model of `std::path::PathBuf`: a Unix path as a string. -/
abbrev PathBuf := String

/-- Model of `PathBuf::is_absolute` on Unix: the path starts with `/`. -/
def PathBuf.isAbsolute (p : PathBuf) : Bool :=
  match p.data with
  | [] => false
  | c :: _ => c = '/'

/-- Model of `PathBuf::join`: an absolute argument replaces the path,
a relative one is appended as a component. -/
def PathBuf.join (dir : PathBuf) (p : String) : PathBuf :=
  if PathBuf.isAbsolute p then p
  else if dir = "" then p
  else dir ++ "/" ++ p

/-- Split a character list into path components at `/` separators
(the semantics of splitting a Unix path string on `/`). -/
def splitComponentsAux : List Char → List Char → List String
  | acc, [] => [⟨acc.reverse⟩]
  | acc, c :: rest =>
    if c = '/' then ⟨acc.reverse⟩ :: splitComponentsAux [] rest
    else splitComponentsAux (c :: acc) rest

/-- Depth tracking for relative `..` traversal: returns `true` when the
component list steps above the starting directory at any point. -/
def escapesDepth : List String → Int → Bool
  | [], _ => false
  | c :: rest, d =>
    if c = ".." then (if d ≤ 0 then true else escapesDepth rest (d - 1))
    else if c = "." || c = "" then escapesDepth rest d
    else escapesDepth rest (d + 1)

/-- Modelled from the spec: whether a relative folder "resolves outside the
project root via `..` traversal" (the safety rule enforced by the external
static-folder provider, whose code is not part of this repository). -/
def escapesRoot (s : String) : Bool := escapesDepth (splitComponentsAux [] s.data) 0

instance {ε α : Type} [DecidableEq ε] [DecidableEq α] : DecidableEq (Except ε α) := fun x y =>
  match x, y with
  | .error a, .error b =>
    if h : a = b then .isTrue (congrArg Except.error h)
    else .isFalse (fun H => h (Except.error.inj H))
  | .ok a, .ok b =>
    if h : a = b then .isTrue (congrArg Except.ok h)
    else .isFalse (fun H => h (Except.ok.inj H))
  | .error _, .ok _ => .isFalse (fun H => Except.noConfusion H)
  | .ok _, .error _ => .isFalse (fun H => Except.noConfusion H)

/-- Model of `dotenvy::Error`, opaque to this crate: only carried and
formatted, never inspected. -/
structure DotenvyError where
  msg : String
deriving DecidableEq

/-- The two configuration failures of the external static-folder provider,
as named by the spec. -/
inductive StaticFolderError
  | invalidSourceFolder
  | traversalOutsideRoot
deriving DecidableEq

/-- Model of `shuttle_service::Error` as observed through this crate:
errors propagated from the static-folder provider, the `Custom` wrapping
produced by `From<EnvError>`, and the `expect` panic in `output` reified
as an explicit outcome. -/
inductive ServiceError
  | staticFolder (e : StaticFolderError)
  | custom (msg : String)
  | panicked (msg : String)
deriving DecidableEq

/-- Modelled from the spec: the opaque manifest (`shuttle_static_folder::Paths`)
emitted by the provider's phase 1, "whatever location/manifest data the
external static-folder provider emitted".  Only its identity matters here. -/
structure Paths where
  folder : String
deriving DecidableEq

/-- Model of `shuttle_static_folder::StaticFolder`: the only configuration
this crate ever sets on it is its source folder. -/
structure StaticFolder where
  folder : String
deriving DecidableEq

/-- Modelled from the spec: `StaticFolder::new()` of the external crate.
Its initial folder is immediately re-targeted by `EnvVars::new`, so its
default value is irrelevant to every claim. -/
def StaticFolder.new : StaticFolder := { folder := "static" }

/-- Model of the external provider's `folder` builder method. -/
def StaticFolder.withFolder (p : StaticFolder) (folder : String) : StaticFolder :=
  { p with folder := folder }

/-- Modelled from the spec: the external static-folder provider's phase-1
`output`, which "fails with `InvalidSourceFolder` if absolute,
`TraversalOutsideRoot` if resolving outside project root" and otherwise
succeeds with a manifest, all before any copy happens. -/
def StaticFolder.output (sf : StaticFolder) : Except ServiceError Paths :=
  if PathBuf.isAbsolute sf.folder then .error (.staticFolder .invalidSourceFolder)
  else if escapesRoot sf.folder then .error (.staticFolder .traversalOutsideRoot)
  else .ok { folder := sf.folder }

def DEFAULT_FOLDER : String := ".env"

def DEFAULT_ENV_PROD : String := ".env"

/-- Model of `struct EnvVars` (`src/lib.rs:10-20`). -/
structure EnvVars where
  folder : String
  env_prod : String
  env_local : Option String
  static_provider : Option StaticFolder

/-- Model of `struct EnvError(dotenvy::Error)` (`src/lib.rs:23`). -/
structure EnvError where
  err : DotenvyError
deriving DecidableEq

/-- Model of the builder method `EnvVars::folder` (`src/lib.rs:27-31`):
updates the field and re-targets the embedded provider in the same step. -/
def EnvVars.withFolder (self : EnvVars) (folder : String) : EnvVars :=
  { self with
    folder := folder
    static_provider := self.static_provider.map (fun p => StaticFolder.withFolder p folder) }

/-- Model of `EnvVars::env_prod` (`src/lib.rs:34-37`). -/
def EnvVars.withEnvProd (self : EnvVars) (env_prod : String) : EnvVars :=
  { self with env_prod := env_prod }

/-- Model of `EnvVars::env_local` (`src/lib.rs:40-43`). -/
def EnvVars.withEnvLocal (self : EnvVars) (env_local : String) : EnvVars :=
  { self with env_local := some env_local }

/-- Model of `EnvVars::env_file_path` (`src/lib.rs:45-50`). -/
def EnvVars.env_file_path (self : EnvVars) (output_dir : Option PathBuf) : PathBuf :=
  match output_dir with
  | none => self.env_local.getD ""
  | some dir => PathBuf.join dir self.env_prod

/-- Model of `EnvVars::load_env_vars` (`src/lib.rs:52-64`); the external
parser `dotenvy::from_filename` is passed as a parameter. -/
def EnvVars.load_env_vars (dotenvy_from_filename : PathBuf → Except DotenvyError PathBuf)
    (env_file_path : PathBuf) : Except EnvError PathBuf :=
  if env_file_path = "" then .ok ""
  else
    match dotenvy_from_filename env_file_path with
    | .ok p => .ok p
    | .error e => .error { err := e }

/-- Model of `struct ResourceOutput` (`src/lib.rs:67-72`). -/
structure ResourceOutput where
  env_prod : String
  env_local : String
  paths : Option Paths
deriving DecidableEq

/-- Model of `ResourceOutput::new` (`src/lib.rs:75-81`): an absent local
file becomes the empty string. -/
def ResourceOutput.new (paths : Option Paths) (env_local : Option String)
    (env_prod : String) : ResourceOutput :=
  { env_prod := env_prod, env_local := env_local.getD "", paths := paths }

/-- Model of `ResourceOutput::env_file_path` (`src/lib.rs:83-88`). -/
def ResourceOutput.env_file_path (self : ResourceOutput) (output_dir : Option PathBuf) : PathBuf :=
  match output_dir with
  | none => self.env_local
  | some dir => PathBuf.join dir self.env_prod

/-- Model of `shuttle_service::Environment`. -/
inductive Environment
  | Production
  | Local
deriving DecidableEq

/-- Model of `<EnvVars as ResourceBuilder>::new` (`src/lib.rs:97-105`). -/
def EnvVars.new : EnvVars :=
  { folder := DEFAULT_FOLDER
    env_prod := DEFAULT_ENV_PROD
    env_local := none
    static_provider := some (StaticFolder.withFolder StaticFolder.new DEFAULT_FOLDER) }

/-- Model of `EnvVars::output` (`src/lib.rs:111-144`).  The factory is
reduced to the environment it reports (its only use); the delegate's
phase-1 call is the parameter `delegate_output`; the
`expect("Static Provider is missing")` panic is reified as
`ServiceError.panicked`. -/
def EnvVars.output (delegate_output : StaticFolder → Except ServiceError Paths)
    (self : EnvVars) (env : Environment) : Except ServiceError ResourceOutput :=
  let is_production :=
    match env with
    | .Production => true
    | .Local => false
  if !is_production then
    .ok (ResourceOutput.new none self.env_local self.env_prod)
  else
    match self.static_provider with
    | none => .error (.panicked "Static Provider is missing")
    | some static_provider =>
      match delegate_output static_provider with
      | .error e => .error e
      | .ok paths => .ok (ResourceOutput.new (some paths) self.env_local self.env_prod)

/-- Model of `impl From<EnvError> for shuttle_service::Error`
(`src/lib.rs:165-170`): wraps the debug-formatted cause in a `Custom`
"Cannot load env vars" message. -/
def EnvError.toServiceError (e : EnvError) : ServiceError :=
  .custom ("Cannot load env vars: EnvError(" ++ e.err.msg ++ ")")

/-- Model of `EnvVars::build` (`src/lib.rs:146-162`).  The delegate's
phase-2 `StaticFolder::build` and the parser are parameters. -/
def EnvVars.build (delegate_build : Paths → Except ServiceError PathBuf)
    (dotenvy_from_filename : PathBuf → Except DotenvyError PathBuf)
    (build_data : ResourceOutput) : Except ServiceError PathBuf :=
  match build_data.paths with
  | some paths =>
    match delegate_build paths with
    | .error e => .error e
    | .ok output_dir =>
      let env_file_path := build_data.env_file_path (some output_dir)
      match EnvVars.load_env_vars dotenvy_from_filename env_file_path with
      | .error e => .error e.toServiceError
      | .ok _ => .ok output_dir
  | none =>
    let env_file_path := build_data.env_file_path none
    match EnvVars.load_env_vars dotenvy_from_filename env_file_path with
    | .error e => .error e.toServiceError
    | .ok _ => .ok env_file_path

/-- One call of the public builder API of `EnvVars`. -/
inductive BuilderCall
  | folder (s : String)
  | env_prod (s : String)
  | env_local (s : String)

/-- Apply one builder call to a descriptor. -/
def applyCall (v : EnvVars) : BuilderCall → EnvVars
  | .folder s => EnvVars.withFolder v s
  | .env_prod s => EnvVars.withEnvProd v s
  | .env_local s => EnvVars.withEnvLocal v s

/-- Apply a sequence of builder calls to a descriptor. -/
def applyCalls (v : EnvVars) (calls : List BuilderCall) : EnvVars :=
  calls.foldl applyCall v

/-- The sync invariant between the `folder` field and the embedded
delegate's configured source folder. -/
def providerSynced (v : EnvVars) : Prop :=
  v.static_provider = some { folder := v.folder }

/-- Each builder call keeps the `folder` field and the embedded delegate's
configured source folder in sync. -/
theorem applyCall_synced (v : EnvVars) (c : BuilderCall) (h : providerSynced v) :
    providerSynced (applyCall v c) := by
  cases c with
  | folder s =>
    simp only [providerSynced, applyCall, EnvVars.withFolder] at h ⊢
    simp [h, StaticFolder.withFolder]
  | env_prod s =>
    simpa only [providerSynced, applyCall, EnvVars.withEnvProd] using h
  | env_local s =>
    simpa only [providerSynced, applyCall, EnvVars.withEnvLocal] using h

/-- The sync invariant is preserved by any sequence of builder calls. -/
theorem applyCalls_synced (v : EnvVars) (calls : List BuilderCall) (h : providerSynced v) :
    providerSynced (applyCalls v calls) := by
  induction calls generalizing v with
  | nil => exact h
  | cons c cs ih => exact ih (applyCall v c) (applyCall_synced v c h)

/-- `EnvVars::new` establishes the sync invariant. -/
theorem new_synced : providerSynced EnvVars.new := rfl

/-- The static-folder provider's phase 1 never produces the reified
`expect` panic outcome: its only failures are its two configuration
errors. -/
theorem staticFolder_output_ne_panicked (sf : StaticFolder) (msg : String) :
    StaticFolder.output sf ≠ .error (.panicked msg) := by
  unfold StaticFolder.output
  split
  · intro H
    exact ServiceError.noConfusion (Except.error.inj H)
  · split
    · intro H
      exact ServiceError.noConfusion (Except.error.inj H)
    · intro H
      exact Except.noConfusion H

/-- C7: after any sequence of builder calls on a descriptor obtained from
`EnvVars::new`, the `folder` field and the embedded static-folder
delegate's configured source folder are equal — `folder(name)` updates
both in the same step, so the invariant holds when phase 1 runs. -/
theorem c7_folder_and_delegate_folder_in_sync (calls : List BuilderCall) :
    (applyCalls EnvVars.new calls).static_provider
      = some { folder := (applyCalls EnvVars.new calls).folder } :=
  applyCalls_synced EnvVars.new calls new_synced

/-- C9: for every descriptor obtained from `EnvVars::new` followed by any
sequence of `folder`, `env_prod` and `env_local` builder calls, the
`static_provider` field is still `Some` when `output` runs, so the
`expect("Static Provider is missing")` on the `take()` is unreachable and
`output` never panics there. -/
theorem c9_output_take_never_panics (calls : List BuilderCall) (env : Environment)
    (msg : String) :
    (applyCalls EnvVars.new calls).static_provider ≠ none ∧
    EnvVars.output StaticFolder.output (applyCalls EnvVars.new calls) env
      ≠ .error (.panicked msg) := by
  have h := applyCalls_synced EnvVars.new calls new_synced
  unfold providerSynced at h
  refine ⟨by simp [h], ?_⟩
  cases env with
  | Local =>
    intro H
    unfold EnvVars.output at H
    simp at H
  | Production =>
    unfold EnvVars.output
    simp only [h]
    cases hout : StaticFolder.output { folder := (applyCalls EnvVars.new calls).folder } with
    | ok p => simp
    | error e =>
      simp only [Bool.not_true, Bool.false_eq_true, if_false, ne_eq, Except.error.injEq]
      intro H
      exact staticFolder_output_ne_panicked _ msg (by rw [hout, H])

/-- C4: for every descriptor and every factory reporting a non-Production
environment, `output` returns a declaration with `paths` (the copy
manifest) absent, and the result is the same whatever the static-folder
delegate would do — the delegate is never invoked and no file I/O is
performed (in this model, I/O can only occur inside the delegate or the
parser, neither of which is reachable from the non-production branch). -/
theorem c4_output_non_production_no_delegation (self : EnvVars) (env : Environment)
    (h : env ≠ .Production)
    (d d2 : StaticFolder → Except ServiceError Paths) :
    EnvVars.output d self env = .ok (ResourceOutput.new none self.env_local self.env_prod) ∧
    (ResourceOutput.new none self.env_local self.env_prod).paths = none ∧
    EnvVars.output d self env = EnvVars.output d2 self env := by
  cases env with
  | Production => exact absurd rfl h
  | Local => exact ⟨rfl, rfl, rfl⟩

/-- Witness for C4 at the concrete instance `EnvVars::new` in the Local
environment, with two observably different delegates. -/
theorem c4_witness :
    EnvVars.output StaticFolder.output EnvVars.new .Local
      = .ok (ResourceOutput.new none EnvVars.new.env_local EnvVars.new.env_prod) ∧
    (ResourceOutput.new none EnvVars.new.env_local EnvVars.new.env_prod).paths = none ∧
    EnvVars.output StaticFolder.output EnvVars.new .Local
      = EnvVars.output (fun _ => .error (.custom "unused")) EnvVars.new .Local :=
  c4_output_non_production_no_delegation EnvVars.new .Local (by decide)
    StaticFolder.output (fun _ => .error (.custom "unused"))

/-- C10: `EnvVars::env_file_path` on a descriptor and
`ResourceOutput::env_file_path` on the declaration built from it via
`ResourceOutput::new` (with `env_local` mapped to the empty string when
absent) return the same path for every `output_dir` argument, both `some`
and `none`. -/
theorem c10_env_file_path_refinement (self : EnvVars) (paths : Option Paths)
    (output_dir : Option PathBuf) :
    EnvVars.env_file_path self output_dir
      = ResourceOutput.env_file_path
          (ResourceOutput.new paths self.env_local self.env_prod) output_dir := by
  cases output_dir <;> rfl

/-- C2: for every descriptor whose `folder` is an absolute path and whose
delegate is in sync with it, `output` under a Production factory fails
with the `InvalidSourceFolder` error of the (spec-modelled) static-folder
provider, regardless of the `env_prod` and `env_local` settings; the
failure is raised in the provider's phase 1, before any copy happens. -/
theorem c2_production_absolute_folder_invalid_source (self : EnvVars) (sf : StaticFolder)
    (hs : self.static_provider = some sf) (hsync : sf.folder = self.folder)
    (habs : PathBuf.isAbsolute self.folder = true) :
    EnvVars.output StaticFolder.output self .Production
      = .error (.staticFolder .invalidSourceFolder) := by
  simp [EnvVars.output, hs, StaticFolder.output, hsync, habs]

/-- Witness for C2 at the concrete descriptor
`EnvVars::new().folder("/etc").env_prod(".env-prod").env_local(".env-dev")`. -/
theorem c2_witness :
    EnvVars.output StaticFolder.output
        (EnvVars.withEnvLocal
          (EnvVars.withEnvProd (EnvVars.withFolder EnvVars.new "/etc") ".env-prod")
          ".env-dev") .Production
      = .error (.staticFolder .invalidSourceFolder) :=
  c2_production_absolute_folder_invalid_source _ { folder := "/etc" } rfl rfl (by decide)

/-- C3: for every descriptor whose `folder` is relative but resolves
outside the project root via `..` traversal, with the delegate in sync,
`output` under a Production factory fails with the `TraversalOutsideRoot`
error of the (spec-modelled) static-folder provider. -/
theorem c3_production_traversal_outside_root (self : EnvVars) (sf : StaticFolder)
    (hs : self.static_provider = some sf) (hsync : sf.folder = self.folder)
    (habs : PathBuf.isAbsolute self.folder = false)
    (htrav : escapesRoot self.folder = true) :
    EnvVars.output StaticFolder.output self .Production
      = .error (.staticFolder .traversalOutsideRoot) := by
  simp [EnvVars.output, hs, StaticFolder.output, hsync, habs, htrav]

/-- Witness for C3 at the concrete descriptor
`EnvVars::new().folder("../escape")`. -/
theorem c3_witness :
    EnvVars.output StaticFolder.output (EnvVars.withFolder EnvVars.new "../escape") .Production
      = .error (.staticFolder .traversalOutsideRoot) :=
  c3_production_traversal_outside_root _ { folder := "../escape" } rfl rfl
    (by decide) (by decide)

/-- C5: for every declaration with the copy manifest absent and the local
file absent or the empty string, `build` succeeds and returns the empty
path, and its result does not depend on the parser — the parser is never
called and no environment variables are installed (installation only
happens inside the parser). -/
theorem c5_build_local_absent_or_empty (l : Option String) (p : String)
    (h : l = none ∨ l = some "")
    (db : Paths → Except ServiceError PathBuf)
    (pf pf2 : PathBuf → Except DotenvyError PathBuf) :
    EnvVars.build db pf (ResourceOutput.new none l p) = .ok "" ∧
    EnvVars.build db pf (ResourceOutput.new none l p)
      = EnvVars.build db pf2 (ResourceOutput.new none l p) := by
  rcases h with h | h <;> subst h <;> exact ⟨rfl, rfl⟩

/-- Witness for C5 at a concrete declaration with no local file, against a
succeeding and a failing parser. -/
theorem c5_witness :
    EnvVars.build (fun _ => .ok "out") (fun _ => .ok "x")
        (ResourceOutput.new none none ".env") = .ok "" ∧
    EnvVars.build (fun _ => .ok "out") (fun _ => .ok "x")
        (ResourceOutput.new none none ".env")
      = EnvVars.build (fun _ => .ok "out") (fun _ => .error { msg := "boom" })
        (ResourceOutput.new none none ".env") :=
  c5_build_local_absent_or_empty none ".env" (Or.inl rfl) _ _ _

/-- C8: for every descriptor with an absolute `folder` and no local file,
under a Local factory, `output` followed by `build` succeeds and returns
the empty path — the absolute-path rule is never applied on the local
path. -/
theorem c8_local_absolute_folder_empty_path (f : String)
    (hf : PathBuf.isAbsolute f = true)
    (db : Paths → Except ServiceError PathBuf)
    (pf : PathBuf → Except DotenvyError PathBuf) :
    EnvVars.output StaticFolder.output (EnvVars.withFolder EnvVars.new f) .Local
      = .ok (ResourceOutput.new none none DEFAULT_ENV_PROD) ∧
    EnvVars.build db pf (ResourceOutput.new none none DEFAULT_ENV_PROD) = .ok "" :=
  ⟨rfl, rfl⟩

/-- Witness for C8 at the concrete descriptor `EnvVars::new().folder("/etc")`. -/
theorem c8_witness :
    EnvVars.output StaticFolder.output (EnvVars.withFolder EnvVars.new "/etc") .Local
      = .ok (ResourceOutput.new none none DEFAULT_ENV_PROD) ∧
    EnvVars.build (fun _ => .ok "out") (fun _ => .error { msg := "boom" })
        (ResourceOutput.new none none DEFAULT_ENV_PROD) = .ok "" :=
  c8_local_absolute_folder_empty_path "/etc" (by decide)
    (fun _ => .ok "out") (fun _ => .error { msg := "boom" })

/-- C6: for every non-empty candidate path on which the parser fails,
`build` fails with the fatal "Cannot load env vars" error wrapping the
underlying parser error — in both the local branch (candidate is the
local file) and the production branch (candidate is the output directory
joined with `env_prod`); the error is returned immediately, with no retry
or local recovery. -/
theorem c6_parser_failure_fatal
    (db : Paths → Except ServiceError PathBuf)
    (pf : PathBuf → Except DotenvyError PathBuf) (e : DotenvyError) :
    (∀ (p l : String), l ≠ "" → pf l = .error e →
      EnvVars.build db pf { env_prod := p, env_local := l, paths := none }
        = .error (EnvError.toServiceError { err := e })) ∧
    (∀ (p l : String) (ps : Paths) (D : PathBuf),
      db ps = .ok D → PathBuf.join D p ≠ "" → pf (PathBuf.join D p) = .error e →
      EnvVars.build db pf { env_prod := p, env_local := l, paths := some ps }
        = .error (EnvError.toServiceError { err := e })) := by
  constructor
  · intro p l hl hpf
    simp [EnvVars.build, ResourceOutput.env_file_path, EnvVars.load_env_vars, hl, hpf]
  · intro p l ps D hdb hne hpf
    simp [EnvVars.build, ResourceOutput.env_file_path, EnvVars.load_env_vars, hdb, hne, hpf]

/-- Witness for C6 at a concrete local declaration whose parser fails. -/
theorem c6_witness :
    EnvVars.build (fun _ => .ok "out") (fun _ => .error { msg := "boom" })
        { env_prod := ".env", env_local := "local.env", paths := none }
      = .error (EnvError.toServiceError { err := { msg := "boom" } }) :=
  (c6_parser_failure_fatal (fun _ => .ok "out") (fun _ => .error { msg := "boom" })
    { msg := "boom" }).1 ".env" "local.env" (by decide) rfl

/-- C1 (amended): for every declaration whose copy manifest is present and
whose delegated copy succeeds yielding output directory `D`, `build`
returns `D` itself (not `D` joined with `env_prod`); the path actually
used for loading is `D` joined with `env_prod`, as the second conjunct
records. -/
theorem c1_build_production_returns_output_dir
    (db : Paths → Except ServiceError PathBuf)
    (pf : PathBuf → Except DotenvyError PathBuf)
    (bd : ResourceOutput) (ps : Paths) (D q : PathBuf)
    (hps : bd.paths = some ps) (hdb : db ps = .ok D)
    (hpf : pf (PathBuf.join D bd.env_prod) = .ok q) :
    EnvVars.build db pf bd = .ok D ∧
    bd.env_file_path (some D) = PathBuf.join D bd.env_prod := by
  refine ⟨?_, rfl⟩
  unfold EnvVars.build
  simp only [hps, hdb]
  unfold ResourceOutput.env_file_path EnvVars.load_env_vars
  by_cases hD : PathBuf.join D bd.env_prod = ""
  · simp [hD]
  · simp [hD, hpf]

/-- Witness for the amended C1 at a concrete production declaration with a
successful copy and a successful parse. -/
theorem c1_witness :
    EnvVars.build (fun _ => .ok "out") (fun x => .ok x)
        { env_prod := ".env", env_local := "", paths := some { folder := ".env" } }
      = .ok "out" ∧
    ResourceOutput.env_file_path
        { env_prod := ".env", env_local := "", paths := some { folder := ".env" } }
        (some "out")
      = PathBuf.join "out" ".env" :=
  c1_build_production_returns_output_dir (fun _ => .ok "out") (fun x => .ok x)
    { env_prod := ".env", env_local := "", paths := some { folder := ".env" } }
    { folder := ".env" } "out" "out/.env" rfl rfl (by decide)

/-- C1 counterexample: at a concrete production declaration whose copy
yields output directory `storage/.env` and whose parse succeeds, `build`
does not return the output directory joined with `env_prod` (as the claim
states); it returns the output directory itself. -/
theorem c1_counterexample :
    EnvVars.build (fun _ => .ok "storage/.env") (fun x => .ok x)
        { env_prod := ".env", env_local := "", paths := some { folder := ".env" } }
      ≠ .ok (PathBuf.join "storage/.env" ".env") ∧
    EnvVars.build (fun _ => .ok "storage/.env") (fun x => .ok x)
        { env_prod := ".env", env_local := "", paths := some { folder := ".env" } }
      = .ok "storage/.env" :=
  ⟨by decide, by decide⟩
